import Mathlib

/-!
Shallow embedding of the core of the RiskRadar-Dashboard backend:
`app/services/risk_calculator.py` (score aggregation per risk category) and
`app/services/monte_carlo.py` (Monte Carlo simulation engine).

Python floats are modelled as rationals (`ℚ`); all arithmetic appearing in the
code (`+ - * / min max abs round`) is exact on the values involved.  The one
irrational operation, `np.std` (a square root), is modelled by passing the
standard-deviation value as an explicit argument constrained — in the theorems
that use it — to be the nonnegative square root of the population variance of
the data, or by carrying the *square* of a standard deviation in result
records (field `stdSq`).

Exceptions are modelled with `Except Unit`: the body of each `try:` block is a
function into `Except Unit _`, and the public operation pattern-matches on it,
mirroring the `try/except` that converts any exception into a default record.
Randomness (`np.random.normal`) is modelled by an explicit `sampler` argument
producing the list of drawn samples.
-/

namespace RiskRadar

/-- `max(0, min(100, score))` from `risk_calculator.py` (the per-category
clamp); also `np.clip(simulations, 0, 100)` from `monte_carlo.py`, which is
the same function on each element. -/
def clamp (x : ℚ) : ℚ := max 0 (min 100 x)

/-- Round-half-to-even to an integer: the idealisation of Python's built-in
`round` on exact values. -/
def roundHalfEven (q : ℚ) : ℤ :=
  let f := ⌊q⌋
  let r := q - (f : ℚ)
  if r < 1/2 then f
  else if 1/2 < r then f + 1
  else if 2 ∣ f then f else f + 1

/-- Python's `round(x, 2)` (round to 2 decimal places, ties to even). -/
def round2 (q : ℚ) : ℚ := (roundHalfEven (q * 100) : ℚ) / 100

/-- One fetched scalar field, as it sits inside a source-API response dict:
either the key is absent (so a `dict.get` default of `0` or `"0%"` is used,
which parses to `0`), or it is present but malformed (so `float(...)` raises),
or it parses to a numeric value. -/
inductive SigVal where
  | absent : SigVal
  | bad : SigVal
  | val : ℚ → SigVal
deriving DecidableEq, Repr

/-- `float(dict.get(key, 0))` / `float(quote.get(key, "0%").replace("%",""))`:
an absent key falls back to a default that parses to `0`; a malformed value
raises, which the embedding records as `Except.error ()`. -/
def parseQ : SigVal → Except Unit ℚ
  | .absent => .ok 0
  | .bad => .error ()
  | .val q => .ok q

/-- A whole optional sub-payload of a source response (e.g. the `articles`
list, the `units.USD` revenue list, the BLS `series[0].data` list): absent
(the guarding `if ... and ... in ...:` check fails and the block is skipped),
present but of a malformed shape (touching it raises), or present with
content. -/
inductive Fetched (α : Type) where
  | absent : Fetched α
  | bad : Fetched α
  | ok : α → Fetched α
deriving DecidableEq, Repr

/-- A value stored in a `raw_data` mapping. -/
inductive RawVal where
  | num : ℚ → RawVal
  | str : String → RawVal
  | newsList : List (String × String) → RawVal
deriving DecidableEq, Repr

/-- The dict returned by a category computation:
`{"category": ..., "score": ..., "raw_data": ..., "calculated_at": ...}`
(the timestamp is not modelled). -/
structure RiskRecord where
  category : String
  score : ℚ
  rawData : List (String × RawVal)
deriving DecidableEq, Repr

/-- A category computation's externally visible effects: the returned record,
and the score handed to `_store_risk_score` (if the success path was reached;
on the exception path nothing is stored). -/
structure CalcResult where
  record : RiskRecord
  stored : Option ℚ
deriving DecidableEq, Repr

/-- `_default_risk(category)` from `risk_calculator.py`. -/
def defaultRisk (category : String) : RiskRecord :=
  { category := category
    score := 50
    rawData := [("error", RawVal.str "Calculation failed, using default")] }

/-- `volatility_score = min(100, 50 + abs(change_percent) * 2)` from
`calculate_market_risk`. -/
def volatilityScore (changePercent : ℚ) : ℚ := min 100 (50 + |changePercent| * 2)

/-- The body of the `try:` block of `calculate_market_risk`, returning the
pre-clamp score together with the accumulated `raw_data` entries.
`stock` is the `"Global Quote"` payload's change-percent field (`none` when
`stock_data` is falsy or has no `"Global Quote"` key); `gdpObs` is the GDP
`observations` list (`none` when absent); `unrateObs` is the unemployment
`observations` list (`none` when absent — note the code indexes
`observations[0]` unguarded, so a present-but-empty list raises). -/
def marketBody (stock : Option SigVal) (gdpObs : Option (List SigVal))
    (unrateObs : Option (List SigVal)) :
    Except Unit (ℚ × List (String × RawVal)) := do
  let score : ℚ := 50
  let raw : List (String × RawVal) := []
  let (score, raw) ←
    match stock with
    | none => pure (score, raw)
    | some s => do
        let changePercent ← parseQ s
        pure ((score + volatilityScore changePercent) / 2,
          raw ++ [("stock_change", RawVal.num changePercent)])
  let (score, raw) ←
    match gdpObs with
    | none => pure (score, raw)
    | some obs =>
        let observations := obs.take 2
        if observations.length ≥ 2 then do
          let recent ← parseQ (observations.getD 0 .absent)
          let previous ← parseQ (observations.getD 1 .absent)
          if previous > 0 then
            let gdpGrowth := ((recent - previous) / previous) * 100
            let score := if gdpGrowth < 0 then score + |gdpGrowth| * 5 else score
            pure (score, raw ++ [("gdp_growth", RawVal.num gdpGrowth)])
          else
            pure (score, raw)
        else
          pure (score, raw)
  let (score, raw) ←
    match unrateObs with
    | none => pure (score, raw)
    | some [] => throw ()
    | some (latest :: _) => do
        let unemployment ← parseQ latest
        pure (score + unemployment * 2,
          raw ++ [("unemployment", RawVal.num unemployment)])
  pure (score, raw)

/-- Success-path epilogue shared by all four categories: clamp to `[0,100]`,
store the clamped score, return the record with the score rounded to two
decimal places. -/
def finishRisk (category : String) (score : ℚ) (raw : List (String × RawVal)) :
    CalcResult :=
  let finalScore := clamp score
  { record := { category := category, score := round2 finalScore, rawData := raw }
    stored := some finalScore }

/-- The shared `try/except` skeleton of the four `calculate_*_risk` methods:
on success clamp, store and round; on any exception return
`_default_risk(category)` with nothing stored. -/
def runCategory (category : String)
    (body : Except Unit (ℚ × List (String × RawVal))) : CalcResult :=
  match body with
  | .ok (score, raw) => finishRisk category score raw
  | .error _ => { record := defaultRisk category, stored := none }

/-- `calculate_market_risk`. -/
def calculateMarketRisk (stock : Option SigVal) (gdpObs : Option (List SigVal))
    (unrateObs : Option (List SigVal)) : CalcResult :=
  runCategory "market" (marketBody stock gdpObs unrateObs)

/-- The body of the `try:` block of `calculate_supply_chain_risk`.
`news` is the `articles` list of the news response, each article contributing
its `title` and `publishedAt` fields. -/
def supplyChainBody (news : Fetched (List (String × String))) :
    Except Unit (ℚ × List (String × RawVal)) :=
  match news with
  | .absent => .ok (50, [])
  | .bad => .error ()
  | .ok articles =>
      let articleCount := articles.length
      let riskAdjustment := min 30 ((articleCount : ℚ) * 1.5)
      .ok (50 + riskAdjustment,
        [("news_articles", RawVal.num articleCount),
         ("recent_news", RawVal.newsList (articles.take 5))])

/-- `calculate_supply_chain_risk`. -/
def calculateSupplyChainRisk (news : Fetched (List (String × String))) :
    CalcResult :=
  runCategory "supply_chain" (supplyChainBody news)

/-- Python `revenues[-4:]`: the last four elements. -/
def lastFour (xs : List SigVal) : List SigVal := xs.drop (xs.length - 4)

/-- Mean of a list of rationals, `np.mean` (division by zero yields `0` in
`ℚ`; the code only takes means of nonempty lists). -/
def popMean (xs : List ℚ) : ℚ := xs.sum / xs.length

/-- Population variance of a list, the square of `np.std` (NumPy's default
`ddof=0`). -/
def popVariance (xs : List ℚ) : ℚ :=
  (xs.map (fun x => (x - popMean xs) ^ 2)).sum / xs.length

/-- The body of the `try:` block of `calculate_regulatory_risk`.
`sec` is the `units.USD` revenue list of the SEC response; `stdVal` stands for
`float(np.std(values))`, the (irrational) standard deviation of the parsed
last-four values — theorems about this function constrain `stdVal` to be the
nonnegative square root of `popVariance` of those values. -/
def regulatoryBody (sec : Fetched (List SigVal)) (stdVal : ℚ) :
    Except Unit (ℚ × List (String × RawVal)) :=
  match sec with
  | .absent => .ok (50, [])
  | .bad => .error ()
  | .ok revenues =>
      if revenues.length ≥ 2 then do
        let values ← (lastFour revenues).mapM parseQ
        if values.length ≥ 2 then
          let volatility := if popMean values > 0 then stdVal / popMean values else 0
          pure (50 + volatility * 20,
            [("revenue_volatility", RawVal.num volatility),
             ("filing_count", RawVal.num revenues.length)])
        else
          pure (50, [])
      else
        .ok (50, [])

/-- `calculate_regulatory_risk`. -/
def calculateRegulatoryRisk (sec : Fetched (List SigVal)) (stdVal : ℚ) :
    CalcResult :=
  runCategory "regulatory" (regulatoryBody sec stdVal)

/-- The body of the `try:` block of `calculate_hr_risk`.
`bls` is `series[0].data` of the BLS response (`absent` when any of the
guarding presence checks fails). -/
def hrBody (bls : Fetched (List SigVal)) :
    Except Unit (ℚ × List (String × RawVal)) :=
  match bls with
  | .absent => .ok (50, [])
  | .bad => .error ()
  | .ok data =>
      if data.length ≥ 2 then do
        let recent ← parseQ (data.getD 0 .absent)
        let previous ← parseQ (data.getD 1 .absent)
        let score : ℚ := if recent > previous then 50 + (recent - previous) * 10 else 50
        pure (score,
          [("unemployment_rate", RawVal.num recent),
           ("unemployment_change", RawVal.num (recent - previous))])
      else
        .ok (50, [])

/-- `calculate_hr_risk`. -/
def calculateHrRisk (bls : Fetched (List SigVal)) : CalcResult :=
  runCategory "hr" (hrBody bls)

/-- The `overall_risk` field of `calculate_all_risks`: the weighted sum of the
four (already rounded) category scores, rounded to two decimal places; no
clamp is applied. -/
def overallRisk (market supplyChain regulatory hr : ℚ) : ℚ :=
  round2 (market * (3/10) + supplyChain * (1/4) + regulatory * (1/4) + hr * (1/5))

/-! ### Monte Carlo simulation engine (`monte_carlo.py`) -/

/-- The draw parameters `(risk_mean, risk_std)` selected by `run_simulation`
(lines 44–56): defaults `(50.0, 15.0)` when fewer than 2 historical scores
are available (`if not historical_scores or len(historical_scores) < 2`),
otherwise the historical mean together with the historical standard deviation,
floored to `10.0` when it is below `1.0`.  `sampleStd` stands for
`float(np.std(scores_array))`; theorems constrain it to be the nonnegative
square root of `popVariance historicalScores`. -/
def deriveParams (historicalScores : List ℚ) (sampleStd : ℚ) : ℚ × ℚ :=
  if historicalScores.length < 2 then (50, 15)
  else (popMean historicalScores, if sampleStd < 1 then 10 else sampleStd)

/-- The linear-interpolation step of `np.percentile` (default method): value
at fractional position `h` (in index units) of the ascending-sorted array
`a`. -/
def interpAt (a : List ℚ) (h : ℚ) : ℚ :=
  let i := (⌊h⌋).toNat
  let lo := a.getD i 0
  let hi := a.getD (i + 1) lo
  lo + (h - (⌊h⌋ : ℚ)) * (hi - lo)

/-- `np.percentile(xs, q)` with the default linear interpolation: sort
ascending, then interpolate at position `q/100 * (n-1)`. -/
def percentile (xs : List ℚ) (q : ℚ) : ℚ :=
  interpAt (xs.insertionSort (· ≤ ·)) (q / 100 * ((xs.length : ℚ) - 1))

/-- The summary statistics computed from the drawn samples in both
`run_simulation` (lines 62–72) and `run_multiple_scenarios` (lines 167–177):
clip every sample to `[0,100]`, then report mean, standard deviation
(represented here by its square, the population variance) and the 5th, 50th
and 95th percentiles of the clipped sample set. -/
structure DistSummary where
  mean : ℚ
  stdSq : ℚ
  p5 : ℚ
  p50 : ℚ
  p95 : ℚ
deriving DecidableEq, Repr

/-- Clip, then summarise: `simulations = np.clip(simulations, 0, 100)`
followed by `np.mean`, `np.std`, `np.percentile` at 5/50/95. -/
def distributionSummary (samples : List ℚ) : DistSummary :=
  let clipped := samples.map clamp
  { mean := popMean clipped
    stdSq := popVariance clipped
    p5 := percentile clipped 5
    p50 := percentile clipped 50
    p95 := percentile clipped 95 }

/-- The dict returned by `run_simulation` (timestamp and category label not
modelled; the standard deviation is carried as its square `stdSq`). -/
structure SimOutput where
  mean : ℚ
  stdSq : ℚ
  p5 : ℚ
  p50 : ℚ
  p95 : ℚ
  iterations : ℕ
deriving DecidableEq, Repr

/-- The fixed fallback dict built in the `except` branch of `run_simulation`:
`mean=50.0, std=10.0` (so `stdSq = 100`),
`percentiles={"5": 35.0, "50": 50.0, "95": 65.0}`, tagged with the requested
`iterations`. -/
def fallbackOutput (iterations : ℕ) : SimOutput :=
  { mean := 50, stdSq := 100, p5 := 35, p50 := 50, p95 := 65
    iterations := iterations }

/-- The body of the `try:` block of `run_simulation`: derive `(mean, std)`,
draw `iterations` samples (`sampler m s iterations` stands for
`np.random.normal(m, s, iterations)`), clip, summarise.  An empty sample list
makes `np.percentile` raise (this is how `iterations = 0` fails), modelled as
`Except.error ()`. -/
def simulationPipeline (historicalScores : List ℚ) (sampleStd : ℚ)
    (iterations : ℕ) (sampler : ℚ → ℚ → ℕ → List ℚ) :
    Except Unit SimOutput :=
  let params := deriveParams historicalScores sampleStd
  let draws := sampler params.1 params.2 iterations
  if draws = [] then .error ()
  else
    let s := distributionSummary draws
    .ok { mean := s.mean, stdSq := s.stdSq, p5 := s.p5, p50 := s.p50
          p95 := s.p95, iterations := iterations }

/-- `run_simulation`: any exception in the pipeline is swallowed and replaced
by the fixed fallback result. -/
def runSimulation (historicalScores : List ℚ) (sampleStd : ℚ)
    (iterations : ℕ) (sampler : ℚ → ℚ → ℕ → List ℚ) : SimOutput :=
  match simulationPipeline historicalScores sampleStd iterations sampler with
  | .ok r => r
  | .error _ => fallbackOutput iterations

/-- The default scenario set of `run_multiple_scenarios`
(label, mean, std). -/
def defaultScenarios : List (String × ℚ × ℚ) :=
  [("optimistic", 30, 5), ("baseline", 50, 10), ("pessimistic", 70, 15)]

/-- `run_multiple_scenarios`: for each scenario run the same
draw/clip/summarise pipeline at a fixed 5000 iterations and map the label to
its distribution summary.  `scenarios = none` models the Python default
`scenarios=None`. -/
def runMultipleScenarios (scenarios : Option (List (String × ℚ × ℚ)))
    (sampler : ℚ → ℚ → ℕ → List ℚ) : List (String × DistSummary) :=
  let scs := scenarios.getD defaultScenarios
  scs.map (fun sc => (sc.1, distributionSummary (sampler sc.2.1 sc.2.2 5000)))

/-! ### Helper lemmas: clamp, rounding, means -/

lemma clamp_nonneg (x : ℚ) : 0 ≤ clamp x := le_max_left 0 _

lemma clamp_le_100 (x : ℚ) : clamp x ≤ 100 :=
  max_le (by norm_num) (min_le_left 100 x)

lemma roundHalfEven_eq_floor_or (q : ℚ) :
    roundHalfEven q = ⌊q⌋ ∨ roundHalfEven q = ⌊q⌋ + 1 := by
  unfold roundHalfEven
  dsimp only
  split_ifs <;> simp

lemma abs_roundHalfEven_sub (q : ℚ) : |(roundHalfEven q : ℚ) - q| ≤ 1/2 := by
  have h0 : (⌊q⌋ : ℚ) ≤ q := Int.floor_le q
  have h1 : q < (⌊q⌋ : ℚ) + 1 := Int.lt_floor_add_one q
  unfold roundHalfEven
  dsimp only
  split_ifs with ha hb hc <;> rw [abs_le] <;> constructor <;> push_cast <;> linarith

lemma abs_round2_sub (q : ℚ) : |round2 q - q| ≤ 1/200 := by
  have h := abs_roundHalfEven_sub (q * 100)
  have heq : round2 q - q = ((roundHalfEven (q * 100) : ℚ) - q * 100) / 100 := by
    rw [round2]; ring
  rw [heq, abs_div, abs_of_pos (show (0:ℚ) < 100 by norm_num),
    div_le_iff₀ (show (0:ℚ) < 100 by norm_num)]
  linarith

lemma round2_nonneg {q : ℚ} (hq : 0 ≤ q) : 0 ≤ round2 q := by
  have hf : 0 ≤ ⌊q * 100⌋ := Int.floor_nonneg.2 (by positivity)
  have := roundHalfEven_eq_floor_or (q * 100)
  rw [round2]
  rcases this with h | h <;> rw [h] <;> positivity

lemma round2_le_100 {q : ℚ} (hq : q ≤ 100) : round2 q ≤ 100 := by
  have h := abs_roundHalfEven_sub (q * 100)
  rw [abs_le] at h
  have hlt : (roundHalfEven (q * 100) : ℚ) < 10001 := by linarith
  have hle : roundHalfEven (q * 100) ≤ 10000 := by exact_mod_cast Int.lt_add_one_iff.mp (by exact_mod_cast hlt)
  rw [round2, div_le_iff₀ (show (0:ℚ) < 100 by norm_num)]
  calc (roundHalfEven (q * 100) : ℚ) ≤ 10000 := by exact_mod_cast hle
  _ = 100 * 100 := by norm_num

lemma finishRisk_score_nonneg (c : String) (s : ℚ) (raw : List (String × RawVal)) :
    0 ≤ (finishRisk c s raw).record.score :=
  round2_nonneg (clamp_nonneg s)

lemma finishRisk_score_le_100 (c : String) (s : ℚ) (raw : List (String × RawVal)) :
    (finishRisk c s raw).record.score ≤ 100 :=
  round2_le_100 (clamp_le_100 s)

lemma popMean_nonneg {xs : List ℚ} (h : ∀ x ∈ xs, 0 ≤ x) : 0 ≤ popMean xs :=
  div_nonneg (List.sum_nonneg h) (Nat.cast_nonneg _)

lemma popMean_le_100 {xs : List ℚ} (hne : xs ≠ []) (h : ∀ x ∈ xs, x ≤ 100) :
    popMean xs ≤ 100 := by
  have hlen : 0 < (xs.length : ℚ) := by
    exact_mod_cast List.length_pos.2 hne
  have hsum : xs.sum ≤ xs.length • (100 : ℚ) := List.sum_le_card_nsmul xs 100 h
  rw [nsmul_eq_mul] at hsum
  rw [popMean, div_le_iff₀ hlen]
  linarith

/-! ### Sorted lists and linear interpolation (`np.percentile`) -/

lemma getD_eq_get_mk {a : List ℚ} {i : ℕ} (hi : i < a.length) (d : ℚ) :
    a.getD i d = a.get ⟨i, hi⟩ := by
  rw [List.getD_eq_getElem a d hi, List.get_eq_getElem]

lemma sorted_get_le {a : List ℚ} (ha : a.Sorted (· ≤ ·)) {i j : ℕ}
    (hij : i ≤ j) (hj : j < a.length) (hi : i < a.length) :
    a.get ⟨i, hi⟩ ≤ a.get ⟨j, hj⟩ :=
  ha.rel_get_of_le (Fin.mk_le_mk.mpr hij)

lemma floor_toNat_lt_length {a : List ℚ} {h : ℚ} (h0 : 0 ≤ h)
    (h1 : h ≤ (a.length : ℚ) - 1) : (⌊h⌋).toNat < a.length := by
  have hf0 : 0 ≤ ⌊h⌋ := Int.floor_nonneg.2 h0
  have hcast : ((a.length : ℚ) - 1) = (((a.length : ℤ) - 1 : ℤ) : ℚ) := by
    push_cast; ring
  have hfl : ⌊h⌋ ≤ (a.length : ℤ) - 1 := by
    have hmono := Int.floor_le_floor h1
    rwa [hcast, Int.floor_intCast] at hmono
  omega

lemma interpAt_mem_Icc {a : List ℚ} {h : ℚ} (hlo : ∀ x ∈ a, 0 ≤ x)
    (hhi : ∀ x ∈ a, x ≤ 100) (h0 : 0 ≤ h) (h1 : h ≤ (a.length : ℚ) - 1) :
    0 ≤ interpAt a h ∧ interpAt a h ≤ 100 := by
  have hin : (⌊h⌋).toNat < a.length := floor_toNat_lt_length h0 h1
  have hfrac0 : 0 ≤ h - (⌊h⌋ : ℚ) := sub_nonneg.2 (Int.floor_le h)
  have hfrac1 : h - (⌊h⌋ : ℚ) < 1 := by linarith [Int.lt_floor_add_one h]
  rw [interpAt]
  set i := (⌊h⌋).toNat with hidef
  have hmemlo : a.getD i 0 ∈ a := by
    rw [getD_eq_get_mk hin]; exact a.get_mem _ _
  have hlo1 : 0 ≤ a.getD i 0 := hlo _ hmemlo
  have hlo2 : a.getD i 0 ≤ 100 := hhi _ hmemlo
  have hhi12 : 0 ≤ a.getD (i+1) (a.getD i 0) ∧ a.getD (i+1) (a.getD i 0) ≤ 100 := by
    rcases lt_or_le (i+1) a.length with hlt | hge
    · have hmem : a.getD (i+1) (a.getD i 0) ∈ a := by
        rw [getD_eq_get_mk hlt]; exact a.get_mem _ _
      exact ⟨hlo _ hmem, hhi _ hmem⟩
    · rw [List.getD_eq_default _ _ hge]
      exact ⟨hlo1, hlo2⟩
  obtain ⟨hh1, hh2⟩ := hhi12
  constructor
  · nlinarith [mul_nonneg hfrac0 hh1,
      mul_nonneg (by linarith : (0:ℚ) ≤ 1 - (h - (⌊h⌋ : ℚ))) hlo1]
  · nlinarith [mul_nonneg hfrac0 (by linarith : (0:ℚ) ≤ 100 - a.getD (i+1) (a.getD i 0)),
      mul_nonneg (by linarith : (0:ℚ) ≤ 1 - (h - (⌊h⌋ : ℚ))) (by linarith : (0:ℚ) ≤ 100 - a.getD i 0)]

lemma interpAt_mono {a : List ℚ} {h₁ h₂ : ℚ} (ha : a.Sorted (· ≤ ·))
    (h0 : 0 ≤ h₁) (h12 : h₁ ≤ h₂) (h1 : h₂ ≤ (a.length : ℚ) - 1) :
    interpAt a h₁ ≤ interpAt a h₂ := by
  have h20 : 0 ≤ h₂ := le_trans h0 h12
  have hin1 : (⌊h₁⌋).toNat < a.length := floor_toNat_lt_length h0 (le_trans h12 h1)
  have hin2 : (⌊h₂⌋).toNat < a.length := floor_toNat_lt_length h20 h1
  have hf10 : 0 ≤ ⌊h₁⌋ := Int.floor_nonneg.2 h0
  have hf20 : 0 ≤ ⌊h₂⌋ := Int.floor_nonneg.2 h20
  have hff : ⌊h₁⌋ ≤ ⌊h₂⌋ := Int.floor_le_floor h12
  have hfrac10 : 0 ≤ h₁ - (⌊h₁⌋ : ℚ) := sub_nonneg.2 (Int.floor_le h₁)
  have hfrac11 : h₁ - (⌊h₁⌋ : ℚ) < 1 := by linarith [Int.lt_floor_add_one h₁]
  have hfrac20 : 0 ≤ h₂ - (⌊h₂⌋ : ℚ) := sub_nonneg.2 (Int.floor_le h₂)
  have hfrac21 : h₂ - (⌊h₂⌋ : ℚ) < 1 := by linarith [Int.lt_floor_add_one h₂]
  rw [interpAt, interpAt]
  rcases eq_or_lt_of_le hff with heq | hlt
  · -- same interpolation segment
    rw [← heq]
    set i := (⌊h₁⌋).toNat with hidef
    have hgood : a.getD i 0 ≤ a.getD (i+1) (a.getD i 0) := by
      rcases lt_or_le (i+1) a.length with hlt' | hge
      · rw [getD_eq_get_mk hlt', getD_eq_get_mk hin1]
        exact sorted_get_le ha (Nat.le_succ i) hlt' hin1
      · rw [List.getD_eq_default _ _ hge]
    nlinarith [mul_nonneg (by linarith : (0:ℚ) ≤ h₂ - h₁)
      (by linarith : (0:ℚ) ≤ a.getD (i+1) (a.getD i 0) - a.getD i 0)]
  · -- h₁'s segment lies strictly before h₂'s
    have hi12 : (⌊h₁⌋).toNat + 1 ≤ (⌊h₂⌋).toNat := by omega
    have hin1' : (⌊h₁⌋).toNat + 1 < a.length := lt_of_le_of_lt hi12 hin2
    set i₁ := (⌊h₁⌋).toNat with hi1def
    set i₂ := (⌊h₂⌋).toNat with hi2def
    have hlo1_le_hi1 : a.getD i₁ 0 ≤ a.getD (i₁+1) (a.getD i₁ 0) := by
      rw [getD_eq_get_mk hin1', getD_eq_get_mk hin1]
      exact sorted_get_le ha (Nat.le_succ i₁) hin1' hin1
    have hstep1 :
        a.getD i₁ 0 + (h₁ - (⌊h₁⌋ : ℚ)) * (a.getD (i₁+1) (a.getD i₁ 0) - a.getD i₁ 0) ≤
          a.getD (i₁+1) (a.getD i₁ 0) := by
      nlinarith [mul_nonneg (by linarith : (0:ℚ) ≤ 1 - (h₁ - (⌊h₁⌋ : ℚ)))
        (by linarith : (0:ℚ) ≤ a.getD (i₁+1) (a.getD i₁ 0) - a.getD i₁ 0)]
    have hstep2 : a.getD (i₁+1) (a.getD i₁ 0) ≤ a.getD i₂ 0 := by
      rw [getD_eq_get_mk hin1', getD_eq_get_mk hin2]
      exact sorted_get_le ha hi12 hin2 hin1'
    have hlo2_le_hi2 : a.getD i₂ 0 ≤ a.getD (i₂+1) (a.getD i₂ 0) := by
      rcases lt_or_le (i₂+1) a.length with hlt' | hge
      · rw [getD_eq_get_mk hlt', getD_eq_get_mk hin2]
        exact sorted_get_le ha (Nat.le_succ i₂) hlt' hin2
      · rw [List.getD_eq_default _ _ hge]
    have hstep3 :
        a.getD i₂ 0 ≤
          a.getD i₂ 0 + (h₂ - (⌊h₂⌋ : ℚ)) * (a.getD (i₂+1) (a.getD i₂ 0) - a.getD i₂ 0) := by
      nlinarith [mul_nonneg hfrac20
        (by linarith : (0:ℚ) ≤ a.getD (i₂+1) (a.getD i₂ 0) - a.getD i₂ 0)]
    linarith

lemma percentile_mem_Icc {xs : List ℚ} (hne : xs ≠ [])
    (hlo : ∀ x ∈ xs, 0 ≤ x) (hhi : ∀ x ∈ xs, x ≤ 100)
    {q : ℚ} (hq0 : 0 ≤ q) (hq1 : q ≤ 100) :
    0 ≤ percentile xs q ∧ percentile xs q ≤ 100 := by
  rw [percentile]
  have hlen : 1 ≤ xs.length := List.length_pos.2 hne
  have hlenq : (1:ℚ) ≤ (xs.length : ℚ) := by exact_mod_cast hlen
  have hsortlen : (xs.insertionSort (· ≤ ·)).length = xs.length :=
    (List.perm_insertionSort (· ≤ ·) xs).length_eq
  have hq100 : q / 100 ≤ 1 := by linarith [div_le_one_of_le₀ hq1 (by norm_num : (0:ℚ) ≤ 100)]
  have h0 : 0 ≤ q / 100 * ((xs.length : ℚ) - 1) := by
    have hq' : (0:ℚ) ≤ q / 100 := by positivity
    nlinarith
  have h1 : q / 100 * ((xs.length : ℚ) - 1) ≤
      ((xs.insertionSort (· ≤ ·)).length : ℚ) - 1 := by
    rw [hsortlen]
    nlinarith
  exact interpAt_mem_Icc
    (fun x hx => hlo x ((List.perm_insertionSort (· ≤ ·) xs).mem_iff.1 hx))
    (fun x hx => hhi x ((List.perm_insertionSort (· ≤ ·) xs).mem_iff.1 hx)) h0 h1

lemma percentile_mono {xs : List ℚ} (hne : xs ≠ []) {q₁ q₂ : ℚ}
    (hq0 : 0 ≤ q₁) (h12 : q₁ ≤ q₂) (hq2 : q₂ ≤ 100) :
    percentile xs q₁ ≤ percentile xs q₂ := by
  rw [percentile, percentile]
  have hlen : 1 ≤ xs.length := List.length_pos.2 hne
  have hlenq : (1:ℚ) ≤ (xs.length : ℚ) := by exact_mod_cast hlen
  have hsortlen : (xs.insertionSort (· ≤ ·)).length = xs.length :=
    (List.perm_insertionSort (· ≤ ·) xs).length_eq
  have hq100 : q₂ / 100 ≤ 1 := by linarith [div_le_one_of_le₀ hq2 (by norm_num : (0:ℚ) ≤ 100)]
  refine interpAt_mono (List.sorted_insertionSort (· ≤ ·) xs) ?_ ?_ ?_
  · have hq' : (0:ℚ) ≤ q₁ / 100 := by positivity
    nlinarith
  · have hdiv : q₁ / 100 ≤ q₂ / 100 := by linarith
    nlinarith
  · rw [hsortlen]
    nlinarith

lemma clipped_bounds {draws : List ℚ} {x : ℚ} (hx : x ∈ draws.map clamp) :
    0 ≤ x ∧ x ≤ 100 := by
  obtain ⟨y, _, rfl⟩ := List.mem_map.1 hx
  exact ⟨clamp_nonneg y, clamp_le_100 y⟩

lemma runCategory_score_nonneg (c : String)
    (b : Except Unit (ℚ × List (String × RawVal))) :
    0 ≤ (runCategory c b).record.score := by
  cases b with
  | error e => norm_num [runCategory, defaultRisk]
  | ok v => obtain ⟨s, raw⟩ := v; exact finishRisk_score_nonneg c s raw

lemma runCategory_score_le_100 (c : String)
    (b : Except Unit (ℚ × List (String × RawVal))) :
    (runCategory c b).record.score ≤ 100 := by
  cases b with
  | error e => norm_num [runCategory, defaultRisk]
  | ok v => obtain ⟨s, raw⟩ := v; exact finishRisk_score_le_100 c s raw

lemma round2_fifty : round2 50 = 50 := by
  norm_num [round2, roundHalfEven]

lemma runCategory_ok_fifty (c : String) (raw : List (String × RawVal)) :
    (runCategory c (.ok (50, raw))).record.score = 50 := by
  show round2 (clamp 50) = 50
  rw [show clamp 50 = 50 by norm_num [clamp], round2_fifty]

/-! ### Claim theorems -/

/-- **C1**: for every risk category (market, supply_chain, regulatory, hr) and
every combination of present, absent or malformed input signals, the score
returned by the category computation lies in `[0, 100]`; with all signals
absent the returned score is exactly `50.0`. -/
theorem C1_category_score_bounds :
    (∀ stock gdpObs unrateObs,
        0 ≤ (calculateMarketRisk stock gdpObs unrateObs).record.score ∧
        (calculateMarketRisk stock gdpObs unrateObs).record.score ≤ 100) ∧
    (∀ news, 0 ≤ (calculateSupplyChainRisk news).record.score ∧
        (calculateSupplyChainRisk news).record.score ≤ 100) ∧
    (∀ sec stdVal, 0 ≤ (calculateRegulatoryRisk sec stdVal).record.score ∧
        (calculateRegulatoryRisk sec stdVal).record.score ≤ 100) ∧
    (∀ bls, 0 ≤ (calculateHrRisk bls).record.score ∧
        (calculateHrRisk bls).record.score ≤ 100) ∧
    (calculateMarketRisk none none none).record.score = 50 ∧
    (calculateSupplyChainRisk .absent).record.score = 50 ∧
    (∀ stdVal, (calculateRegulatoryRisk .absent stdVal).record.score = 50) ∧
    (calculateHrRisk .absent).record.score = 50 := by
  refine ⟨fun stock gdpObs unrateObs => ⟨?_, ?_⟩, fun news => ⟨?_, ?_⟩,
    fun sec stdVal => ⟨?_, ?_⟩, fun bls => ⟨?_, ?_⟩, ?_, ?_, fun stdVal => ?_, ?_⟩
  · exact runCategory_score_nonneg _ _
  · exact runCategory_score_le_100 _ _
  · exact runCategory_score_nonneg _ _
  · exact runCategory_score_le_100 _ _
  · exact runCategory_score_nonneg _ _
  · exact runCategory_score_le_100 _ _
  · exact runCategory_score_nonneg _ _
  · exact runCategory_score_le_100 _ _
  · exact runCategory_ok_fifty "market" []
  · exact runCategory_ok_fifty "supply_chain" []
  · exact runCategory_ok_fifty "regulatory" []
  · exact runCategory_ok_fifty "hr" []

/-- **C5**: a stock percent-change signal of `+8` with no other signals gives
`volatility_score = min(100, 50 + |8|*2) = 66` and a returned market score of
exactly `(50 + 66) / 2 = 58.0`. -/
theorem C5_market_score_at_plus_eight :
    volatilityScore 8 = 66 ∧
    (calculateMarketRisk (some (.val 8)) none none).record.score = 58 := by
  constructor
  · norm_num [volatilityScore]
  · norm_num [calculateMarketRisk, marketBody, runCategory, finishRisk, volatilityScore,
      parseQ, clamp, round2, roundHalfEven, bind, Except.bind, pure, Except.pure]

lemma runCategory_error (c : String) (e : Unit) :
    runCategory c (.error e) = { record := defaultRisk c, stored := none } := rfl

lemma finishRisk_props (c : String) (s : ℚ) (raw : List (String × RawVal)) :
    (finishRisk c s raw).stored = some (clamp s) ∧
    (finishRisk c s raw).record.score = round2 (clamp s) ∧
    |(finishRisk c s raw).record.score - clamp s| ≤ 1/200 :=
  ⟨rfl, rfl, abs_round2_sub (clamp s)⟩

/-- **C2** counterexample: with a malformed stock signal the market
computation does return a default record with score `50.0`, but its raw
signals are `{"error": "Calculation failed, using default"}` (capital `C` in
the code), not the claimed `{"error": "calculation failed, using default"}`. -/
theorem C2_counterexample_error_string :
    (calculateMarketRisk (some .bad) none none).record.score = 50 ∧
    (calculateMarketRisk (some .bad) none none).record.rawData ≠
      [("error", RawVal.str "calculation failed, using default")] := by
  constructor
  · rfl
  · decide

/-- **C2** (amended): whenever an exception occurs during a category score
computation, the computation does not raise to its caller; it returns the
default record — score `50.0` and raw signals equal to the single-entry
mapping `{"error": "Calculation failed, using default"}` — and stores
nothing. -/
theorem C2_default_on_exception :
    (∀ stock gdpObs unrateObs e, marketBody stock gdpObs unrateObs = .error e →
        calculateMarketRisk stock gdpObs unrateObs =
          { record := defaultRisk "market", stored := none }) ∧
    (∀ news e, supplyChainBody news = .error e →
        calculateSupplyChainRisk news =
          { record := defaultRisk "supply_chain", stored := none }) ∧
    (∀ sec stdVal e, regulatoryBody sec stdVal = .error e →
        calculateRegulatoryRisk sec stdVal =
          { record := defaultRisk "regulatory", stored := none }) ∧
    (∀ bls e, hrBody bls = .error e →
        calculateHrRisk bls = { record := defaultRisk "hr", stored := none }) ∧
    (∀ c, (defaultRisk c).score = 50 ∧
        (defaultRisk c).rawData =
          [("error", RawVal.str "Calculation failed, using default")]) := by
  refine ⟨?_, ?_, ?_, ?_, fun c => ⟨rfl, rfl⟩⟩
  · intro stock gdpObs unrateObs e h
    rw [calculateMarketRisk, h, runCategory_error]
  · intro news e h
    rw [calculateSupplyChainRisk, h, runCategory_error]
  · intro sec stdVal e h
    rw [calculateRegulatoryRisk, h, runCategory_error]
  · intro bls e h
    rw [calculateHrRisk, h, runCategory_error]

/-- Witness for **C2**: the amended theorem applied to a concrete raising
input (a malformed stock change percent). -/
theorem C2_default_on_exception_witness :
    marketBody (some .bad) none none = .error () ∧
    calculateMarketRisk (some .bad) none none =
      { record := defaultRisk "market", stored := none } := by
  have h : marketBody (some .bad) none none = .error () := rfl
  exact ⟨h, C2_default_on_exception.1 (some .bad) none none () h⟩

/-- **C10**: for every successful category computation, the score in the
returned record is the clamped score rounded to 2 decimal places, while the
score passed to the storage append is the unrounded clamped value, so the
two can differ by up to `0.005` — the bound is attained at a market run whose
only signal is an unemployment rate of `1/400`, which stores `50.005` and
returns `50.0`. -/
theorem C10_stored_vs_returned_score :
    (∀ stock gdpObs unrateObs s raw,
        marketBody stock gdpObs unrateObs = .ok (s, raw) →
        (calculateMarketRisk stock gdpObs unrateObs).stored = some (clamp s) ∧
        (calculateMarketRisk stock gdpObs unrateObs).record.score = round2 (clamp s) ∧
        |(calculateMarketRisk stock gdpObs unrateObs).record.score - clamp s| ≤ 1/200) ∧
    (∀ news s raw, supplyChainBody news = .ok (s, raw) →
        (calculateSupplyChainRisk news).stored = some (clamp s) ∧
        (calculateSupplyChainRisk news).record.score = round2 (clamp s) ∧
        |(calculateSupplyChainRisk news).record.score - clamp s| ≤ 1/200) ∧
    (∀ sec stdVal s raw, regulatoryBody sec stdVal = .ok (s, raw) →
        (calculateRegulatoryRisk sec stdVal).stored = some (clamp s) ∧
        (calculateRegulatoryRisk sec stdVal).record.score = round2 (clamp s) ∧
        |(calculateRegulatoryRisk sec stdVal).record.score - clamp s| ≤ 1/200) ∧
    (∀ bls s raw, hrBody bls = .ok (s, raw) →
        (calculateHrRisk bls).stored = some (clamp s) ∧
        (calculateHrRisk bls).record.score = round2 (clamp s) ∧
        |(calculateHrRisk bls).record.score - clamp s| ≤ 1/200) ∧
    ((calculateMarketRisk none none (some [.val (1/400)])).stored = some (10001/200) ∧
     (calculateMarketRisk none none (some [.val (1/400)])).record.score = 50) := by
  refine ⟨?_, ?_, ?_, ?_, ?_, ?_⟩
  · intro stock gdpObs unrateObs s raw h
    rw [calculateMarketRisk, h]
    exact finishRisk_props "market" s raw
  · intro news s raw h
    rw [calculateSupplyChainRisk, h]
    exact finishRisk_props "supply_chain" s raw
  · intro sec stdVal s raw h
    rw [calculateRegulatoryRisk, h]
    exact finishRisk_props "regulatory" s raw
  · intro bls s raw h
    rw [calculateHrRisk, h]
    exact finishRisk_props "hr" s raw
  · norm_num [calculateMarketRisk, marketBody, runCategory, finishRisk, parseQ, clamp,
      bind, Except.bind, pure, Except.pure]
  · norm_num [calculateMarketRisk, marketBody, runCategory, finishRisk, parseQ, clamp,
      round2, roundHalfEven, bind, Except.bind, pure, Except.pure]

/-- Witness for **C10**: the market clause applied to a concrete successful
run (all signals absent). -/
theorem C10_stored_vs_returned_score_witness :
    marketBody none none none = .ok (50, []) ∧
    (calculateMarketRisk none none none).stored = some (clamp 50) := by
  have h : marketBody none none none = .ok (50, []) := rfl
  exact ⟨h, (C10_stored_vs_returned_score.1 none none none 50 [] h).1⟩

/-- **C4** counterexample: at category scores `(50.01, 50, 50, 50)` the
weighted sum is `50.003`, but `calculate_all_risks` rounds the overall risk to
2 decimal places and returns `50.0` — a deviation of `0.003`, far beyond
floating-point tolerance. -/
theorem C4_counterexample_overall_rounded :
    overallRisk (5001/100) 50 50 50 = 50 ∧
    (5001/100 : ℚ) * (3/10) + 50 * (1/4) + 50 * (1/4) + 50 * (1/5) = 50003/1000 ∧
    ¬(|overallRisk (5001/100) 50 50 50 -
        ((5001/100 : ℚ) * (3/10) + 50 * (1/4) + 50 * (1/4) + 50 * (1/5))| ≤ 1/1000000) := by
  refine ⟨?_, by norm_num, ?_⟩
  · norm_num [overallRisk, round2, roundHalfEven]
  · norm_num [overallRisk, round2, roundHalfEven, abs_le]

/-- **C4** (amended): for any four category scores, the overall risk returned
by `calculate_all_risks` equals the weighted sum
`0.30*market + 0.25*supply_chain + 0.25*regulatory + 0.20*hr` rounded to two
decimal places (so within `0.005` of the exact weighted sum, not within
floating-point tolerance), and it is not independently clamped: when the four
scores lie in `[0,100]` the weighted sum — and with it the returned value —
is bounded by construction. -/
theorem C4_overall_weighted_sum :
    ∀ market supplyChain regulatory hr : ℚ,
      overallRisk market supplyChain regulatory hr =
        round2 (market * (3/10) + supplyChain * (1/4) + regulatory * (1/4) + hr * (1/5)) ∧
      |overallRisk market supplyChain regulatory hr -
        (market * (3/10) + supplyChain * (1/4) + regulatory * (1/4) + hr * (1/5))| ≤ 1/200 ∧
      (0 ≤ market → market ≤ 100 → 0 ≤ supplyChain → supplyChain ≤ 100 →
        0 ≤ regulatory → regulatory ≤ 100 → 0 ≤ hr → hr ≤ 100 →
        0 ≤ market * (3/10) + supplyChain * (1/4) + regulatory * (1/4) + hr * (1/5) ∧
        market * (3/10) + supplyChain * (1/4) + regulatory * (1/4) + hr * (1/5) ≤ 100 ∧
        0 ≤ overallRisk market supplyChain regulatory hr ∧
        overallRisk market supplyChain regulatory hr ≤ 100) := by
  intro market supplyChain regulatory hr
  refine ⟨rfl, abs_round2_sub _, ?_⟩
  intro h1 h2 h3 h4 h5 h6 h7 h8
  refine ⟨by linarith, by linarith, ?_, ?_⟩
  · exact round2_nonneg (by linarith)
  · exact round2_le_100 (by linarith)

/-- Witness for **C4**: the amended theorem instantiated at scores
`(58, 50, 50, 50)`, all bounds discharged. -/
theorem C4_overall_weighted_sum_witness :
    0 ≤ overallRisk 58 50 50 50 ∧ overallRisk 58 50 50 50 ≤ 100 := by
  have h := (C4_overall_weighted_sum 58 50 50 50).2.2 (by norm_num) (by norm_num)
    (by norm_num) (by norm_num) (by norm_num) (by norm_num) (by norm_num) (by norm_num)
  exact ⟨h.2.2.1, h.2.2.2⟩

/-- **C6**: with fewer than 2 historical score values (including none at
all), the normal-distribution draw parameters selected by `run_simulation`
are the documented defaults `mean = 50.0`, `std = 15.0`. -/
theorem C6_default_draw_params :
    ∀ (historicalScores : List ℚ) (sampleStd : ℚ),
      historicalScores.length < 2 →
      deriveParams historicalScores sampleStd = (50, 15) := by
  intro hist s h
  rw [deriveParams, if_pos h]

/-- Witness for **C6**: no historical data at all. -/
theorem C6_default_draw_params_witness :
    ([] : List ℚ).length < 2 ∧ deriveParams [] 0 = (50, 15) :=
  ⟨by norm_num, C6_default_draw_params [] 0 (by norm_num)⟩

/-- **C7**: with at least 2 historical values the draw parameters are the
sample mean and sample standard deviation of the fetched values (`np.std`
with `ddof=0`, i.e. the nonnegative square root of `popVariance`), except
that a standard deviation below `1.0` — equivalently a variance below `1.0` —
is overridden to exactly `10.0`. -/
theorem C7_historical_draw_params :
    ∀ (historicalScores : List ℚ) (sampleStd : ℚ),
      2 ≤ historicalScores.length → 0 ≤ sampleStd →
      sampleStd ^ 2 = popVariance historicalScores →
      (deriveParams historicalScores sampleStd).1 = popMean historicalScores ∧
      (popVariance historicalScores < 1 →
        (deriveParams historicalScores sampleStd).2 = 10) ∧
      (1 ≤ popVariance historicalScores →
        (deriveParams historicalScores sampleStd).2 = sampleStd) := by
  intro hist s hlen hs hsq
  have hnotlt : ¬ hist.length < 2 := by omega
  rw [deriveParams, if_neg hnotlt]
  refine ⟨rfl, fun hvar => ?_, fun hvar => ?_⟩
  · have hlt : s < 1 := by nlinarith
    simp [hlt]
  · have hge : ¬ s < 1 := by nlinarith
    simp [hge]

/-- Witness for **C7**: historical scores `[50, 50]` have variance `0`, so
the floor forces `std = 10.0` while the mean stays `50`. -/
theorem C7_historical_draw_params_witness :
    deriveParams [50, 50] 0 = (50, 10) := by
  have hv : (0:ℚ)^2 = popVariance [(50:ℚ), 50] := by
    norm_num [popVariance, popMean]
  have hvar : popVariance [(50:ℚ), 50] < 1 := by
    norm_num [popVariance, popMean]
  have h := C7_historical_draw_params [50, 50] 0 (by norm_num) le_rfl hv
  have hfst := h.1
  have hsnd := h.2.1 hvar
  have hmean : popMean [(50:ℚ), 50] = 50 := by norm_num [popMean]
  exact Prod.ext (by rw [hfst, hmean]) hsnd

/-- **C3**: whenever any exception occurs inside the simulation pipeline,
`run_simulation` does not raise; it returns the fixed fallback result
`mean = 50.0`, `std = 10.0`, percentiles `{5: 35.0, 50: 50.0, 95: 65.0}`,
with the `iterations` field equal to the requested iteration count. -/
theorem C3_fallback_on_exception :
    ∀ (historicalScores : List ℚ) (sampleStd : ℚ) (iterations : ℕ)
      (sampler : ℚ → ℚ → ℕ → List ℚ) (e : Unit),
      simulationPipeline historicalScores sampleStd iterations sampler = .error e →
      runSimulation historicalScores sampleStd iterations sampler =
        fallbackOutput iterations ∧
      (fallbackOutput iterations).mean = 50 ∧
      (fallbackOutput iterations).stdSq = 10 ^ 2 ∧
      (fallbackOutput iterations).p5 = 35 ∧
      (fallbackOutput iterations).p50 = 50 ∧
      (fallbackOutput iterations).p95 = 65 ∧
      (fallbackOutput iterations).iterations = iterations := by
  intro hist s it sampler e h
  refine ⟨?_, rfl, by norm_num [fallbackOutput], rfl, rfl, rfl, rfl⟩
  rw [runSimulation, h]

/-- Witness for **C3**: a pipeline that raises (its sample drawing yields
nothing, as with `iterations = 0`, where `np.percentile` raises). -/
theorem C3_fallback_on_exception_witness :
    simulationPipeline [] 0 5 (fun _ _ _ => []) = .error () ∧
    runSimulation [] 0 5 (fun _ _ _ => []) = fallbackOutput 5 := by
  have h : simulationPipeline [] 0 5 (fun _ _ _ => []) = .error () := rfl
  exact ⟨h, (C3_fallback_on_exception [] 0 5 (fun _ _ _ => []) () h).1⟩

/-- **C8**: for every non-fallback simulation run (a nonempty drawn sample
list), after clipping every sample to `[0,100]` the reported mean and every
reported percentile lie in `[0,100]`, the percentiles satisfy
`p5 ≤ p50 ≤ p95`, and the reported mean and standard deviation are those of
the clipped sample set (the reported std squared is its population
variance), not the input parameters. -/
theorem C8_summary_bounds :
    ∀ draws : List ℚ, draws ≠ [] →
      (distributionSummary draws).mean = popMean (draws.map clamp) ∧
      (distributionSummary draws).stdSq = popVariance (draws.map clamp) ∧
      0 ≤ (distributionSummary draws).mean ∧
      (distributionSummary draws).mean ≤ 100 ∧
      0 ≤ (distributionSummary draws).p5 ∧
      (distributionSummary draws).p5 ≤ (distributionSummary draws).p50 ∧
      (distributionSummary draws).p50 ≤ (distributionSummary draws).p95 ∧
      (distributionSummary draws).p95 ≤ 100 := by
  intro draws hne
  have hcne : draws.map clamp ≠ [] := by simpa using hne
  have hlo : ∀ x ∈ draws.map clamp, 0 ≤ x := fun x hx => (clipped_bounds hx).1
  have hhi : ∀ x ∈ draws.map clamp, x ≤ 100 := fun x hx => (clipped_bounds hx).2
  refine ⟨rfl, rfl, popMean_nonneg hlo, popMean_le_100 hcne hhi, ?_, ?_, ?_, ?_⟩
  · exact (percentile_mem_Icc hcne hlo hhi (by norm_num) (by norm_num)).1
  · exact percentile_mono hcne (by norm_num) (by norm_num) (by norm_num)
  · exact percentile_mono hcne (by norm_num) (by norm_num) (by norm_num)
  · exact (percentile_mem_Icc hcne hlo hhi (by norm_num) (by norm_num)).2

/-- Witness for **C8**: a concrete one-sample run. -/
theorem C8_summary_bounds_witness :
    ([60] : List ℚ) ≠ [] ∧
    (distributionSummary [60]).p5 ≤ (distributionSummary [60]).p50 ∧
    0 ≤ (distributionSummary [60]).mean := by
  have h := C8_summary_bounds [60] (by norm_num)
  exact ⟨by norm_num, h.2.2.2.2.2.1, h.2.2.1⟩

/-- **C9**: scenario mode with no explicit parameters runs exactly three
scenarios — optimistic `(mean 30, std 5)`, baseline `(mean 50, std 10)`,
pessimistic `(mean 70, std 15)` — each independently through the same
draw/clip/percentile pipeline at a fixed 5000 iterations, and returns the
mapping from each scenario label to its distribution summary. -/
theorem C9_default_scenarios :
    ∀ sampler : ℚ → ℚ → ℕ → List ℚ,
      runMultipleScenarios none sampler =
        [("optimistic", distributionSummary (sampler 30 5 5000)),
         ("baseline", distributionSummary (sampler 50 10 5000)),
         ("pessimistic", distributionSummary (sampler 70 15 5000))] ∧
      (runMultipleScenarios none sampler).length = 3 := by
  intro sampler
  exact ⟨rfl, rfl⟩

end RiskRadar
